import Mathlib

/-!
Verification of the `pyosim` AnalyzeTool module (`src/pyosim/analyse_tool.py`)
against its natural-language specification.

The development shallowly embeds the pure logic of the module:

* the configuration extractor `parse_analyze_set_xml` together with its
  helper `_str_to_list` (here `str_to_list`) and the Python `float(...)`
  acceptance test `isfloat`;
* the per-trial orchestration `run_analyze_tool`, modelled as a pure
  function from a configuration and a trial to a result that records the
  sequence of calls made into the opaque simulation engine (`opensim`);
* the constructor's `time_range` validation (`AnalyzeTool.__init__`);
* the post-processing helpers `_remove_empty_files` and `_subset_output`,
  modelled as pure functions on a directory listing.

Numeric time values are modelled as rationals (the Python code only moves
them around and compares them with `-1` and, via truthiness, with `0`; no
floating-point arithmetic is performed on them).  Engine calls are opaque:
the embedding records which engine objects are constructed / loaded and
when the analysis is run, but not the individual setter calls on already
constructed engine objects, whose behaviour lives inside the engine.
-/

namespace Pyosim

/-! ### Python `float(...)` acceptance

`parse_analyze_set_xml` classifies an element text as a float exactly when
Python's `float(text)` does not raise `ValueError` (helper `isfloat`,
analyse_tool.py lines 288-293).  We embed CPython's grammar for float
strings: optional surrounding whitespace, an optional sign, then either an
infinity/nan keyword (case-insensitive) or a decimal literal with optional
fractional part and exponent, where `_` may separate digits.  (Non-ASCII
whitespace and non-ASCII decimal digits, which CPython also accepts, are
not modelled; no configuration text in this repository uses them.) -/

def isPyWs (c : Char) : Bool :=
  c = ' ' || c = '\t' || c = '\n' || c = '\r' || c = Char.ofNat 11 || c = Char.ofNat 12

/-- Strip leading and trailing whitespace, as `float(str)` does. -/
def stripWs (cs : List Char) : List Char :=
  ((cs.dropWhile isPyWs).reverse.dropWhile isPyWs).reverse

/-- Consume a run of digits in which `_` may appear between two digits
(CPython's underscore rule for numeric literals); returns the unconsumed
rest.  The run stops before a `_` that is not followed by a digit. -/
def digitsUndAux : List Char → List Char
  | [] => []
  | c :: r =>
    if c.isDigit then digitsUndAux r
    else if c = '_' then
      match r with
      | d :: r2 => if d.isDigit then digitsUndAux r2 else c :: r
      | [] => c :: r
    else c :: r

/-- A digit group must start with a digit; `none` when it does not. -/
def digitsUnd : List Char → Option (List Char)
  | [] => none
  | c :: r => if c.isDigit then some (digitsUndAux r) else none

/-- Exponent tail after the `e`/`E`: optional sign then a digit group
consuming the entire rest. -/
def parseExpTail (cs : List Char) : Bool :=
  let cs1 := match cs with
    | c :: r => if c = '+' || c = '-' then r else c :: r
    | [] => []
  match digitsUnd cs1 with
  | some [] => true
  | _ => false

/-- After the mantissa: end of input or an exponent part. -/
def parseExpOrEnd : List Char → Bool
  | [] => true
  | c :: r => (c = 'e' || c = 'E') && parseExpTail r

/-- Decimal float literal (sign already removed): `digits [. [digits]] [exp]`
or `. digits [exp]`. -/
def parseNumber (cs : List Char) : Bool :=
  match digitsUnd cs with
  | some rest =>
    match rest with
    | [] => true
    | '.' :: r2 =>
      (match digitsUnd r2 with
       | some r3 => parseExpOrEnd r3
       | none => parseExpOrEnd r2)
    | c :: r2 => (c = 'e' || c = 'E') && parseExpTail r2
  | none =>
    match cs with
    | '.' :: r2 =>
      (match digitsUnd r2 with
       | some r3 => parseExpOrEnd r3
       | none => false)
    | _ => false

/-- Whether Python's `float(s)` succeeds: the `isfloat` helper of
`parse_analyze_set_xml` (analyse_tool.py lines 288-293). -/
def isfloat (s : String) : Bool :=
  let cs := stripWs s.toList
  match cs with
  | [] => false
  | c :: r =>
    let cs1 := if c = '+' || c = '-' then r else c :: r
    let low := cs1.map Char.toLower
    if low = "inf".toList || low = "infinity".toList || low = "nan".toList then true
    else parseNumber cs1

/-! ### The tokenizer `_str_to_list` (analyse_tool.py lines 311-321)

The Python code indexes `string[count]` while skipping leading spaces, so
it raises `IndexError` on an empty or all-space string; otherwise it drops
the leading spaces and applies `str.split(" ")` (single-space separator,
keeping empty fields between consecutive separators). -/

/-- Python's `str.split(" ")` on a character list: split at every single
space, keeping empty fields. -/
def splitSp : List Char → List (List Char)
  | [] => [[]]
  | c :: rest =>
    if c = ' ' then [] :: splitSp rest
    else
      match splitSp rest with
      | t :: ts => (c :: t) :: ts
      | [] => [[c]]

/-- The scan of `_str_to_list`: `none` models the `IndexError` raised when
the string is empty or all spaces; otherwise the leading spaces are
dropped and the rest split on single spaces. -/
def strToListAux : List Char → Option (List String)
  | [] => none
  | c :: rest =>
    if c = ' ' then strToListAux rest
    else some ((splitSp (c :: rest)).map String.mk)

/-- `AnalyzeTool._str_to_list` (analyse_tool.py lines 311-321). -/
def str_to_list (s : String) : Option (List String) :=
  strToListAux s.toList

/-! ### The extractor `parse_analyze_set_xml` (analyse_tool.py lines 282-309) -/

/-- A typed parameter value, as stored by the extractor.  `float text`
represents the Python value `float(text)` (the decoded IEEE number is kept
abstract via its source text); `absent` is the `None` stored when the
element has no text. -/
inductive Value where
  | bool (b : Bool)
  | float (text : String)
  | absent
  | tokens (l : List String)
deriving DecidableEq, Repr

/-- Python-level errors the extractor can raise. -/
inductive ParseErr where
  | indexError
deriving DecidableEq, Repr

/-- An XML child element of the analysis node, after ElementTree parsing:
its tag and its optional text (`none` models Python `None`). -/
structure Elem where
  tag : String
  text : Option String
deriving DecidableEq, Repr

/-- The typing of one element's text, following the `if`/`elif` chain of
`parse_analyze_set_xml` (lines 297-306): text `"true"`/`"false"` becomes a
boolean, absent text is stored as the absent marker, float-parseable text
becomes a float, anything else goes through `_str_to_list` (which may
raise).  The source tests `t.text == "true"` before testing for `None`;
since `None` equals neither string literal the `none` case may be matched
first, as done here. -/
def elemValue (text : Option String) : Except ParseErr Value :=
  match text with
  | none => .ok .absent
  | some s =>
    if s = "true" then .ok (.bool true)
    else if s = "false" then .ok (.bool false)
    else if isfloat s then .ok (.float s)
    else
      match str_to_list s with
      | some l => .ok (.tokens l)
      | none => .error .indexError

/-- Python `dict.update({k: v})`: replace the value at an existing key in
place, otherwise append the new binding. -/
def dictUpdate (m : List (String × Value)) (k : String) (v : Value) :
    List (String × Value) :=
  if m.any (fun p => p.1 == k) then
    m.map (fun p => if p.1 == k then (k, v) else p)
  else m ++ [(k, v)]

def parseAux (out : List (String × Value)) : List Elem → Except ParseErr (List (String × Value))
  | [] => .ok out
  | t :: ts =>
    match elemValue t.text with
    | .ok v => parseAux (dictUpdate out t.tag v) ts
    | .error e => .error e

/-- `AnalyzeTool.parse_analyze_set_xml` (lines 282-309), applied to the
list of child elements matched by `root.findall(".//node/*")` on a
well-formed document. -/
def parse_analyze_set_xml (elements : List Elem) : Except ParseErr (List (String × Value)) :=
  parseAux [] elements

/-! ### The per-trial orchestration `run_analyze_tool` (lines 140-280)

A trial is a motion file: its filename stem and the first/last recorded
times of the motion (`osim.Storage.getFirstTime` / `getLastTime`).  The
configuration holds the constructor fields that the modelled control flow
reads.  Constructor fields that only parameterize unrecorded setter calls
on engine objects (`sto_output`, `low_pass`, `xml_actuators`,
`print_to_xml`, paths) or that are modelled standalone
(`remove_empty_files`, `contains`: see `remove_empty_files` and
`subset_output` below) or out of scope (`multi`: process-level
concurrency) are omitted.  `kind` is the `get_class_name()` result, i.e.
the name of the concrete subclass; `xmlElems` is the list of child
elements the `xml_input` document yields under the `kind` node. -/

structure Trial where
  stem : String
  firstTime : ℚ
  lastTime : ℚ
deriving DecidableEq, Repr

structure Config where
  prefixOpt : Option String
  startTime : Option ℚ
  endTime : Option ℚ
  modelIsPath : Bool
  xmlForces : Bool
  kind : String
  xmlElems : List Elem
deriving DecidableEq, Repr

/-- Calls into the opaque simulation engine, in the order the code makes
them.  Setter calls on an already constructed engine object are not
recorded; object constructions / loads and the final run are. -/
inductive EngineCall where
  | modelLoad
  | initSystem
  | storageLoad (stem : String)
  | externalLoadsLoad
  | externalLoadsPrint (file : String)
  | analysisConstruct (kind : String)
  | analyzeToolConstruct
  | analyzeRun
deriving DecidableEq, Repr

/-- Python-level errors `run_analyze_tool` can raise before reaching the
engine run: the `IndexError` escaping `_str_to_list`, a `KeyError` on a
missing parameter, a `TypeError` from iterating or `int(...)`-converting a
non-list / non-numeric parameter, an `OverflowError` from `int(inf)`, and
the `ValueError` of the unrecognized-kind branch (line 230). -/
inductive RunErr where
  | indexError
  | keyError (k : String)
  | typeError
  | overflowError
  | valueError (msg : String)
deriving DecidableEq, Repr

/-- Result of one trial: skipped by the prefix filter, aborted by a
Python-level error (with the engine calls made up to that point), or
completed (with the full engine-call trace and the first/last times
applied to the analysis and the analyze tool). -/
inductive RunResult where
  | skipped
  | errored (calls : List EngineCall) (e : RunErr)
  | completed (calls : List EngineCall) (firstTime lastTime : ℚ)
deriving DecidableEq, Repr

/-- Python `str.startswith`: character-prefix test. -/
def pystartswith (s pre : String) : Bool :=
  List.isPrefixOf pre.toList s.toList

/-- The prefix filter (lines 141-143): `if self.prefix and not
trial.stem.startswith(self.prefix)`.  A `None` or empty prefix is falsy,
so such a trial is never skipped. -/
def skipTrial (cfg : Config) (trial : Trial) : Bool :=
  match cfg.prefixOpt with
  | some p => !(p == "") && !pystartswith trial.stem p
  | none => false

/-- The effective start (resp. end) time (lines 153-160): `if
self.start_time and self.start_time != -1: first_time = self.start_time
else: first_time = motion.getFirstTime()`.  Python truthiness makes a
stored time of `0` (and `None`) falsy, so the trial-derived time is used
in those cases as well as for the sentinel `-1`. -/
def effective_time (override : Option ℚ) (trialTime : ℚ) : ℚ :=
  match override with
  | some x => if x ≠ 0 ∧ x ≠ -1 then x else trialTime
  | none => trialTime

/-- The engine calls made before the kind dispatch: model load (when the
model was given as a path, line 148), `initSystem` (line 149), the motion
`Storage` load (line 152), and the external-loads template load and
temporary-file print (lines 163-181) when an external-forces template was
given. -/
def loadCalls (cfg : Config) (trial : Trial) : List EngineCall :=
  (if cfg.modelIsPath then [EngineCall.modelLoad] else [])
    ++ [EngineCall.initSystem, EngineCall.storageLoad trial.stem]
    ++ (if cfg.xmlForces then
          [EngineCall.externalLoadsLoad,
           EngineCall.externalLoadsPrint (trial.stem ++ "_temp.xml")]
        else [])

/-- Python `params[k]`: `KeyError` when the key is missing. -/
def getParam (params : List (String × Value)) (k : String) : Except RunErr Value :=
  match params.find? (fun p => p.1 == k) with
  | some p => .ok p.2
  | none => .error (.keyError k)

/-- Iterating a parameter value with `for x in v` succeeds only for the
token-list values the extractor produces (floats, booleans and `None` are
not iterable; bare strings never occur as values). -/
def iterTokens : Value → Except RunErr (List String)
  | .tokens l => .ok l
  | _ => .error .typeError

/-- Python `int(v)` on an extracted value: fine on booleans and finite
floats, `OverflowError` on infinities, `ValueError` on nan, `TypeError`
on `None` and lists. -/
def intCoerce : Value → Except RunErr Unit
  | .bool _ => .ok ()
  | .float s =>
    let cs1 := match stripWs s.toList with
      | c :: r => if c = '+' || c = '-' then r else c :: r
      | [] => []
    let low := cs1.map Char.toLower
    if low = "inf".toList || low = "infinity".toList then .error .overflowError
    else if low = "nan".toList then .error (.valueError "cannot convert float NaN to integer")
    else .ok ()
  | .absent => .error .typeError
  | .tokens _ => .error .typeError

/-- The kind dispatch (lines 186-230): construct the analysis object of
the requested kind and read its kind-specific parameters in source order,
or raise `ValueError` for an unrecognized kind.  Returns the engine calls
made by the branch and either the `solve_for_equilibrium` flag or the
first Python-level error.  Value checks done inside native setters are
engine-side and unmodelled; the Python-level `int(...)` conversion and
`for`-loop iterations are modelled. -/
def setupAnalysis (kind : String) (params : List (String × Value)) :
    List EngineCall × Except RunErr Bool :=
  if kind = "StaticOptimization" then
    ([EngineCall.analysisConstruct kind], do
      let _ ← getParam params "use_model_force_set"
      let _ ← getParam params "activation_exponent"
      let _ ← getParam params "use_muscle_physiology"
      let _ ← getParam params "optimizer_convergence_criterion"
      let mi ← getParam params "optimizer_max_iterations"
      intCoerce mi
      pure false)
  else if kind = "MuscleAnalysis" then
    ([EngineCall.analysisConstruct kind], do
      let c ← getParam params "moment_arm_coordinate_list"
      let _ ← iterTokens c
      let m ← getParam params "muscle_list"
      let _ ← iterTokens m
      pure true)
  else if kind = "JointReaction" then
    ([EngineCall.analysisConstruct kind], do
      let _ ← getParam params "forces_file"
      let j ← getParam params "joint_names"
      let _ ← iterTokens j
      let b ← getParam params "apply_on_bodies"
      let _ ← iterTokens b
      let f ← getParam params "express_in_frame"
      let _ ← iterTokens f
      pure false)
  else ([], .error (.valueError "AnalyzeTool must be called from a child class"))

/-- The shared parameter reads of lines 233-235: `params["on"]`,
`int(params["step_interval"])`, `params["in_degrees"]`. -/
def sharedParams (params : List (String × Value)) : Except RunErr Unit := do
  let _ ← getParam params "on"
  let si ← getParam params "step_interval"
  intCoerce si
  let _ ← getParam params "in_degrees"
  pure ()

/-- The body of `run_analyze_tool` once the prefix filter has been passed
(lines 145-280): engine loads, effective time window, parameter
extraction, kind dispatch, shared parameter application, and the engine
run.  The completed result records the engine-call trace and the
first/last times applied via `setStartTime`/`setEndTime` (lines 236-237)
and `setInitialTime`/`setFinalTime` (lines 256-257). -/
def runBody (cfg : Config) (trial : Trial) : RunResult :=
  let calls := loadCalls cfg trial
  match parse_analyze_set_xml cfg.xmlElems with
  | .error _ => .errored calls .indexError
  | .ok params =>
    match setupAnalysis cfg.kind params with
    | (kcalls, .error e) => .errored (calls ++ kcalls) e
    | (kcalls, .ok _solveEq) =>
      match sharedParams params with
      | .error e => .errored (calls ++ kcalls) e
      | .ok _ =>
        .completed
          (calls ++ kcalls ++ [EngineCall.analyzeToolConstruct, EngineCall.analyzeRun])
          (effective_time cfg.startTime trial.firstTime)
          (effective_time cfg.endTime trial.lastTime)

/-- `AnalyzeTool.run_analyze_tool` (lines 140-280). -/
def run_analyze_tool (cfg : Config) (trial : Trial) : RunResult :=
  if skipTrial cfg trial then .skipped else runBody cfg trial

/-! ### The constructor's `time_range` validation (lines 111-117) -/

/-- The `time_range` constructor argument: Python `None`, a list or
`numpy` array of numbers, or any other value (e.g. a tuple, a number or a
string), which the `isinstance(time_range, (list, np.ndarray))` test
rejects. -/
inductive TimeRangeArg where
  | noneArg
  | pylist (l : List ℚ)
  | other
deriving DecidableEq, Repr

/-- Errors the constructor can raise while handling `time_range`: the
explicit `RuntimeError` of line 117, or the `IndexError` from
`time_range[0]` / `time_range[1]` on a list shorter than two elements. -/
inductive InitErr where
  | runtimeError (msg : String)
  | indexError
deriving DecidableEq, Repr

/-- Lines 111-117: a list/array has its first two elements taken as start
and end time (no length check: element 0 then element 1 are indexed, so a
short list raises `IndexError`); `None` leaves both unset; anything else
raises the `RuntimeError`. -/
def initTimeRange : TimeRangeArg → Except InitErr (Option ℚ × Option ℚ)
  | .pylist l =>
    match l[0]?, l[1]? with
    | some a, some b => .ok (some a, some b)
    | _, _ => .error .indexError
  | .noneArg => .ok (none, none)
  | .other =>
    .error (.runtimeError "Time range must be a list or an array of start and last time frame.")

/-- The constructor followed by the sequential `main_loop` (lines 76-138):
`time_range` is validated first; only if it is accepted is every trial
processed (so a `time_range` error precedes any trial processing). -/
def analyze_tool (cfg : Config) (timeRange : TimeRangeArg) (trials : List Trial) :
    Except InitErr (List RunResult) :=
  match initTimeRange timeRange with
  | .error e => .error e
  | .ok (s, e) =>
    .ok (trials.map fun t =>
      run_analyze_tool { cfg with startTime := s, endTime := e } t)

/-! ### Post-processing helpers (lines 323-353)

A directory is modelled as the list of its files, each with a name and a
byte size (`Path.stat().st_size`).  Each helper returns the directory
contents remaining after its deletions. -/

structure PFile where
  name : String
  size : ℕ
deriving DecidableEq, Repr

/-- `AnalyzeTool._remove_empty_files` (lines 323-337): delete every file
whose size is strictly below the threshold (the default threshold is
1000 bytes). -/
def remove_empty_files (files : List PFile) (threshold : ℕ) : List PFile :=
  files.filter (fun f => !decide (f.size < threshold))

/-- `pathlib.Path.stem`: the final path component without its last suffix.
The suffix is `name[i:]` for the last `.` at index `i` with
`0 < i < len - 1`; a name without such a dot (no dot, a leading dot only,
or a trailing dot) is its own stem. -/
def pystem (name : String) : String :=
  let cs := name.toList
  match ((List.range cs.length).filter fun i => cs[i]? = some '.').getLast? with
  | some i => if 0 < i ∧ i < cs.length - 1 then String.mk (cs.take i) else name
  | none => name

/-- Python `needle in hay` on character lists: contiguous-substring
test. -/
def listContains (hay needle : List Char) : Bool :=
  List.isPrefixOf needle hay ||
    match hay with
    | [] => false
    | _ :: t => listContains t needle

/-- `AnalyzeTool._subset_output` (lines 339-353): keep exactly the files
whose *stem* contains the given string (`if contains not in ifile.stem:
ifile.unlink()`). -/
def subset_output (files : List PFile) (contains : String) : List PFile :=
  files.filter (fun f => listContains (pystem f.name).toList contains.toList)

/-! ### Helper lemmas on the tokenizer -/

theorem splitSp_ne_nil (cs : List Char) : splitSp cs ≠ [] := by
  induction cs with
  | nil => simp [splitSp]
  | cons c rest ih =>
    unfold splitSp
    by_cases h : c = ' '
    · simp [h]
    · simp only [if_neg h]
      cases hs : splitSp rest with
      | nil => simp
      | cons t ts => simp

theorem splitSp_cons_of_ne_space (c : Char) (rest : List Char) (h : ¬ c = ' ') :
    ∃ t ts, splitSp (c :: rest) = (c :: t) :: ts := by
  unfold splitSp
  simp only [if_neg h]
  cases hs : splitSp rest with
  | nil => exact absurd hs (splitSp_ne_nil rest)
  | cons t ts => exact ⟨t, ts, rfl⟩

theorem strToListAux_all_space (cs : List Char) (h : ∀ c ∈ cs, c = ' ') :
    strToListAux cs = none := by
  induction cs with
  | nil => rfl
  | cons c rest ih =>
    have hc : c = ' ' := h c (by simp)
    unfold strToListAux
    rw [if_pos hc]
    exact ih (fun x hx => h x (by simp [hx]))

theorem strToListAux_of_ex_ne_space (cs : List Char) (h : ∃ c ∈ cs, ¬ c = ' ') :
    strToListAux cs =
      some ((splitSp (cs.dropWhile fun c => c = ' ')).map String.mk) := by
  induction cs with
  | nil => simp at h
  | cons c rest ih =>
    by_cases hc : c = ' '
    · have hrest : ∃ x ∈ rest, ¬ x = ' ' := by
        rcases h with ⟨x, hx, hxs⟩
        rcases List.mem_cons.mp hx with rfl | hx'
        · exact absurd hc hxs
        · exact ⟨x, hx', hxs⟩
      unfold strToListAux
      rw [if_pos hc, ih hrest]
      have : List.dropWhile (fun c => decide (c = ' ')) (c :: rest) =
          List.dropWhile (fun c => decide (c = ' ')) rest := by
        simp [List.dropWhile, hc]
      rw [this]
    · unfold strToListAux
      rw [if_neg hc]
      have : List.dropWhile (fun c => decide (c = ' ')) (c :: rest) = c :: rest := by
        simp [List.dropWhile, hc]
      rw [this]

/-- A string consisting only of spaces is not accepted by `float(...)`:
stripping its whitespace leaves nothing. -/
theorem isfloat_all_space (s : String) (h : ∀ c ∈ s.toList, c = ' ') :
    isfloat s = false := by
  have hd : s.toList.dropWhile isPyWs = [] := by
    rw [List.dropWhile_eq_nil_iff]
    intro x hx
    rw [h x hx]
    rfl
  unfold isfloat stripWs
  rw [hd]
  rfl

/-! ### Claim theorems -/

/-- The extractor's per-element typing, written out as the specification
states it (claim C1) with the one amendment the code forces: the
precedence is boolean (`"true"`/`"false"`), then float-parseable text,
then absent text, and otherwise the token list obtained by trimming
leading spaces and splitting on single spaces — except that a text
consisting only of spaces makes the tokenizer raise an out-of-range
indexing error instead of yielding a token list. -/
def claimValue (text : Option String) : Except ParseErr Value :=
  match text with
  | some s =>
    if s = "true" then .ok (.bool true)
    else if s = "false" then .ok (.bool false)
    else if isfloat s then .ok (.float s)
    else if s.toList.all (fun c => c = ' ') then .error .indexError
    else .ok (.tokens ((splitSp (s.toList.dropWhile fun c => c = ' ')).map String.mk))
  | none => .ok .absent

/-- C1 (amended): the extractor types every element text by the claimed
precedence — boolean for `"true"`/`"false"` (never a string), float for
float-parseable text, the absent marker for `None` text — and any other
text yields the trimmed-and-split token list, except that a text made
only of spaces raises an indexing error. -/
theorem extractor_typing_precedence_amended (text : Option String) :
    elemValue text = claimValue text := by
  cases text with
  | none => rfl
  | some s =>
    unfold elemValue claimValue
    by_cases h1 : s = "true"
    · simp [h1]
    by_cases h2 : s = "false"
    · simp [h1, h2]
    by_cases h3 : isfloat s
    · simp [h1, h2, h3]
    simp only [if_neg h1, if_neg h2, h3, Bool.false_eq_true, if_false]
    by_cases h4 : s.toList.all (fun c => decide (c = ' '))
    · have hall : ∀ c ∈ s.toList, c = ' ' := by
        intro c hc
        have := List.all_eq_true.mp h4 c hc
        exact of_decide_eq_true this
      rw [if_pos h4]
      unfold str_to_list
      rw [strToListAux_all_space s.toList hall]
    · have hex : ∃ c ∈ s.toList, ¬ c = ' ' := by
        rcases List.all_eq_true.not.mp h4 with h
        push_neg at h
        rcases h with ⟨c, hc, hcs⟩
        exact ⟨c, hc, fun hc' => hcs (by simp [hc'])⟩
      rw [if_neg h4]
      unfold str_to_list
      rw [strToListAux_of_ex_ne_space s.toList hex]

/-- C1 counterexample: the claim's "any other text yields a token list"
fails at the all-space text `"   "`, which is neither a boolean literal
nor float-parseable nor `None`, yet makes the extractor raise an indexing
error instead of yielding a token list. -/
theorem extractor_typing_precedence_cex :
    ("   " ≠ "true" ∧ "   " ≠ "false" ∧ isfloat "   " = false) ∧
      elemValue (some "   ") = Except.error ParseErr.indexError ∧
      parse_analyze_set_xml [⟨"param", some "   "⟩] = Except.error ParseErr.indexError := by
  refine ⟨⟨by decide, by decide, by decide⟩, rfl, rfl⟩

/-- Whenever the tokenizer scan returns a token list, its first token is
a nonempty string (the first char after the dropped spaces heads it). -/
theorem strToListAux_head_ne_empty (cs : List Char) (l : List String) (t : String)
    (hl : strToListAux cs = some l) (ht : l.head? = some t) : t ≠ "" := by
  induction cs with
  | nil => simp [strToListAux] at hl
  | cons c rest ih =>
    by_cases hc : c = ' '
    · unfold strToListAux at hl
      rw [if_pos hc] at hl
      exact ih hl
    · unfold strToListAux at hl
      rw [if_neg hc] at hl
      rcases splitSp_cons_of_ne_space c rest hc with ⟨t0, ts, hsp⟩
      rw [hsp] at hl
      have hl' : String.mk (c :: t0) :: ts.map String.mk = l := by
        injection hl
      rw [← hl'] at ht
      simp only [List.head?_cons, Option.some.injEq] at ht
      intro hemp
      rw [← ht] at hemp
      have := congrArg String.toList hemp
      simp at this

/-- C5: on any text containing a non-space character, `_str_to_list`
first removes all leading spaces and then splits on single spaces, so the
token list it returns starts with a nonempty token. -/
theorem tokenizer_trims_leading_spaces (s : String)
    (h : ∃ c ∈ s.toList, ¬ c = ' ') :
    str_to_list s =
        some ((splitSp (s.toList.dropWhile fun c => c = ' ')).map String.mk) ∧
      ∀ l t, str_to_list s = some l → l.head? = some t → t ≠ "" := by
  unfold str_to_list
  exact ⟨strToListAux_of_ex_ne_space s.toList h,
    fun l t hl ht => strToListAux_head_ne_empty s.toList l t hl ht⟩

/-- C5 witness: `"   a b c"` has a non-space character and tokenizes to
`["a", "b", "c"]`. -/
theorem tokenizer_trims_leading_spaces_witness :
    str_to_list "   a b c" =
        some ((splitSp ("   a b c".toList.dropWhile fun c => c = ' ')).map String.mk) ∧
      str_to_list "   a b c" = some ["a", "b", "c"] :=
  ⟨(tokenizer_trims_leading_spaces "   a b c" (by decide)).1, by decide⟩

/-- C9: when the named analysis node has zero matching child elements,
the extractor returns the empty mapping rather than failing. -/
theorem empty_node_empty_mapping :
    parse_analyze_set_xml [] = Except.ok [] := rfl

/-- C10: on an empty or all-space string `_str_to_list` runs off the end
of the string and raises an out-of-range indexing error, so the extractor
crashes on a spaces-only element text instead of producing a value. -/
theorem tokenizer_crash_on_spaces (s : String) (h : ∀ c ∈ s.toList, c = ' ') :
    str_to_list s = none ∧
      parse_analyze_set_xml [⟨"tag", some s⟩] = Except.error ParseErr.indexError := by
  have hstl : str_to_list s = none := strToListAux_all_space s.toList h
  refine ⟨hstl, ?_⟩
  have h1 : s ≠ "true" := by
    intro hs
    subst hs
    have := h 't' (by decide)
    simp at this
  have h2 : s ≠ "false" := by
    intro hs
    subst hs
    have := h 'f' (by decide)
    simp at this
  have h3 : isfloat s = false := isfloat_all_space s h
  unfold parse_analyze_set_xml parseAux elemValue
  simp only [if_neg h1, if_neg h2, h3, Bool.false_eq_true, if_false, hstl]

/-- C10 witness: the single-space string is all spaces, is rejected by
the tokenizer, and crashes the extractor. -/
theorem tokenizer_crash_on_spaces_witness :
    str_to_list " " = none ∧
      parse_analyze_set_xml [⟨"tag", some " "⟩] = Except.error ParseErr.indexError :=
  tokenizer_crash_on_spaces " " (by decide)

/-- C3 counterexample: the claim "every time_range that is not absent and
not a two-element sequence raises the fatal argument error" fails at the
three-element list `[1, 2, 3]`: the `isinstance` test accepts any list,
no length check is made, and construction proceeds with start `1` and
end `2`. -/
theorem time_range_validation_cex :
    initTimeRange (TimeRangeArg.pylist [1, 2, 3]) = Except.ok (some 1, some 2) ∧
      ([1, 2, 3] : List ℚ).length ≠ 2 :=
  ⟨rfl, by decide⟩

/-- C3 (amended): the constructor raises the fatal `RuntimeError` exactly
when `time_range` is neither absent nor a list/array, and it does so
before any trial is processed; a list/array with at least two elements
proceeds, taking its first two elements as start and end time (a shorter
list instead fails with an indexing error, and a list with more than two
elements is accepted). -/
theorem time_range_validation_amended :
    (∀ (cfg : Config) (tr : TimeRangeArg) (trials : List Trial),
        (∃ m, analyze_tool cfg tr trials = Except.error (InitErr.runtimeError m)) ↔
          tr = TimeRangeArg.other) ∧
      (∀ (cfg : Config) (a b : ℚ) (rest : List ℚ) (trials : List Trial),
        analyze_tool cfg (TimeRangeArg.pylist (a :: b :: rest)) trials =
          Except.ok (trials.map fun t =>
            run_analyze_tool { cfg with startTime := some a, endTime := some b } t)) := by
  constructor
  · intro cfg tr trials
    constructor
    · rintro ⟨m, hm⟩
      cases tr with
      | noneArg => simp [analyze_tool, initTimeRange] at hm
      | pylist l =>
        unfold analyze_tool initTimeRange at hm
        rcases l with _ | ⟨a, _ | ⟨b, rest⟩⟩ <;> simp at hm
      | other => rfl
    · rintro rfl
      exact ⟨"Time range must be a list or an array of start and last time frame.", rfl⟩
  · intro cfg a b rest trials
    simp [analyze_tool, initTimeRange]

/-- C3 witness: a `time_range` of any other shape (e.g. a tuple) raises
the `RuntimeError`, and the two-element list `[2, 5]` is accepted, its
elements becoming the start and end times. -/
theorem time_range_validation_witness :
    (∃ m, analyze_tool
        ⟨none, none, none, true, false, "StaticOptimization", []⟩
        TimeRangeArg.other [] = Except.error (InitErr.runtimeError m)) ∧
      analyze_tool ⟨none, none, none, true, false, "StaticOptimization", []⟩
        (TimeRangeArg.pylist [2, 5]) [] = Except.ok [] :=
  ⟨(time_range_validation_amended.1
      ⟨none, none, none, true, false, "StaticOptimization", []⟩
      TimeRangeArg.other []).mpr rfl,
    time_range_validation_amended.2
      ⟨none, none, none, true, false, "StaticOptimization", []⟩ 2 5 [] []⟩

/-- C7: the empty-file pruning step deletes a file exactly when its byte
size is strictly below the threshold; in particular, at the default
threshold of 1000 bytes, a 500-byte file is deleted and a 5000-byte file
is retained. -/
theorem remove_empty_files_below_threshold (files : List PFile) (threshold : ℕ)
    (f : PFile) :
    f ∈ remove_empty_files files threshold ↔ f ∈ files ∧ ¬ f.size < threshold := by
  unfold remove_empty_files
  rw [List.mem_filter]
  simp

/-- C7 witness: with the default 1000-byte threshold, the 5000-byte file
survives and the 500-byte file does not. -/
theorem remove_empty_files_below_threshold_witness :
    (⟨"big.sto", 5000⟩ : PFile) ∈
        remove_empty_files [⟨"small.sto", 500⟩, ⟨"big.sto", 5000⟩] 1000 ∧
      (⟨"small.sto", 500⟩ : PFile) ∉
        remove_empty_files [⟨"small.sto", 500⟩, ⟨"big.sto", 5000⟩] 1000 :=
  ⟨(remove_empty_files_below_threshold [⟨"small.sto", 500⟩, ⟨"big.sto", 5000⟩] 1000
      ⟨"big.sto", 5000⟩).mpr (by decide),
    fun h =>
      absurd ((remove_empty_files_below_threshold
        [⟨"small.sto", 500⟩, ⟨"big.sto", 5000⟩] 1000 ⟨"small.sto", 500⟩).mp h).2
        (by decide)⟩

/-- C8 counterexample: the claim "retains a file iff its *name* contains
the substring" fails at a file named `"x.walk"` with substring
`"walk"`: the name contains the substring, but the code tests the stem
(`"x"`), so the file is deleted. -/
theorem subset_output_name_cex :
    listContains "x.walk".toList "walk".toList = true ∧
      subset_output [⟨"x.walk", 2000⟩] "walk" = [] := by
  exact ⟨by decide, by decide⟩

/-- C8 (amended): the subset step retains a file exactly when its
filename *stem* (the name without its final extension) contains the
configured substring, deleting all others. -/
theorem subset_output_stem_iff (files : List PFile) (c : String) (f : PFile) :
    f ∈ subset_output files c ↔
      f ∈ files ∧ listContains (pystem f.name).toList c.toList = true := by
  unfold subset_output
  rw [List.mem_filter]

/-- C8 witness: with substring `"walk"`, `"walk01_so.sto"` (stem
`"walk01_so"`) is retained and `"run01_so.sto"` (stem `"run01_so"`) is
deleted. -/
theorem subset_output_stem_iff_witness :
    (⟨"walk01_so.sto", 2000⟩ : PFile) ∈
        subset_output [⟨"run01_so.sto", 2000⟩, ⟨"walk01_so.sto", 2000⟩] "walk" ∧
      (⟨"run01_so.sto", 2000⟩ : PFile) ∉
        subset_output [⟨"run01_so.sto", 2000⟩, ⟨"walk01_so.sto", 2000⟩] "walk" :=
  ⟨(subset_output_stem_iff [⟨"run01_so.sto", 2000⟩, ⟨"walk01_so.sto", 2000⟩] "walk"
      ⟨"walk01_so.sto", 2000⟩).mpr (by decide),
    fun h =>
      absurd ((subset_output_stem_iff [⟨"run01_so.sto", 2000⟩, ⟨"walk01_so.sto", 2000⟩]
        "walk" ⟨"run01_so.sto", 2000⟩).mp h).2 (by decide)⟩

/-! ### Orchestrator lemmas and claims C2, C4, C6 -/

/-- Once the prefix filter has been passed, a trial is never reported as
skipped: the body ends in an error or a completed run. -/
theorem runBody_ne_skipped (cfg : Config) (trial : Trial) :
    runBody cfg trial ≠ RunResult.skipped := by
  unfold runBody
  intro hcontra
  split at hcontra
  · simp at hcontra
  · split at hcontra
    · simp at hcontra
    · split at hcontra <;> simp at hcontra

theorem run_skipped_iff (cfg : Config) (trial : Trial) :
    run_analyze_tool cfg trial = RunResult.skipped ↔ skipTrial cfg trial = true := by
  unfold run_analyze_tool
  by_cases h : skipTrial cfg trial
  · simp [h]
  · simp [h, runBody_ne_skipped cfg trial]

/-- `s.startswith("")` is `True` for every string. -/
theorem pystartswith_empty (s : String) : pystartswith s "" = true := by
  unfold pystartswith
  cases s.toList with
  | nil => rfl
  | cons a l => rfl

/-- C6: a trial is processed (not skipped) exactly when every configured
prefix is a prefix of its filename stem; with no prefix configured every
trial is processed. -/
theorem prefix_filter_processed_iff (cfg : Config) (trial : Trial) :
    run_analyze_tool cfg trial ≠ RunResult.skipped ↔
      ∀ p, cfg.prefixOpt = some p → pystartswith trial.stem p = true := by
  rw [Ne, run_skipped_iff]
  cases hpo : cfg.prefixOpt with
  | none => simp [skipTrial, hpo]
  | some p =>
    simp only [skipTrial, hpo, Option.some.injEq]
    constructor
    · intro h q hq
      rw [← hq]
      by_cases hemp : p = ""
      · rw [hemp]
        exact pystartswith_empty trial.stem
      · rcases Bool.eq_false_or_eq_true (pystartswith trial.stem p) with ht | hf
        · exact ht
        · exfalso
          apply h
          simp [hf, hemp]
    · intro h
      have hst := h p rfl
      simp [hst]

/-- C6 witness: with prefix `"wu"`, the trial with stem `"wu_walk01"` is
processed and the trial with stem `"ta_walk01"` is skipped. -/
theorem prefix_filter_processed_iff_witness :
    run_analyze_tool ⟨some "wu", none, none, true, false, "StaticOptimization", []⟩
        ⟨"wu_walk01", 1, 4⟩ ≠ RunResult.skipped ∧
      run_analyze_tool ⟨some "wu", none, none, true, false, "StaticOptimization", []⟩
        ⟨"ta_walk01", 1, 4⟩ = RunResult.skipped :=
  ⟨(prefix_filter_processed_iff
      ⟨some "wu", none, none, true, false, "StaticOptimization", []⟩
      ⟨"wu_walk01", 1, 4⟩).mpr (by decide),
    by decide⟩

/-- The engine calls made before the kind dispatch never include an
analysis construction, the analyze-tool construction, or the run. -/
theorem loadCalls_no_analysis (cfg : Config) (trial : Trial) :
    (∀ k, EngineCall.analysisConstruct k ∉ loadCalls cfg trial) ∧
      EngineCall.analyzeToolConstruct ∉ loadCalls cfg trial ∧
      EngineCall.analyzeRun ∉ loadCalls cfg trial := by
  unfold loadCalls
  cases cfg.modelIsPath <;> cases cfg.xmlForces <;> simp

/-- C4 counterexample: the claim "the unrecognized-kind error is signaled
before any call into the simulation engine" fails: with kind
`"Analyze"`, a model given as a path and no forces template, the
`ValueError` is raised only after the engine has loaded the model,
initialized its system, and loaded the trial's motion storage. -/
theorem unknown_kind_error_cex :
    run_analyze_tool ⟨none, none, none, true, false, "Analyze", []⟩ ⟨"trial", 0, 9⟩ =
        RunResult.errored
          [EngineCall.modelLoad, EngineCall.initSystem, EngineCall.storageLoad "trial"]
          (RunErr.valueError "AnalyzeTool must be called from a child class") ∧
      ([EngineCall.modelLoad, EngineCall.initSystem, EngineCall.storageLoad "trial"] :
          List EngineCall) ≠ [] :=
  ⟨by decide, by decide⟩

/-- C4 (amended): for every analysis kind other than StaticOptimization,
MuscleAnalysis and JointReaction, a trial that passes the prefix filter
and whose XML parameters parse raises the fatal configuration
`ValueError`, and it does so before any analysis object is constructed
and before the analyze tool is constructed or run — though the engine
calls that load the model and the trial's motion (and, if configured, the
external-loads template) do occur first. -/
theorem unknown_kind_error_amended (cfg : Config) (trial : Trial)
    (ps : List (String × Value))
    (h1 : cfg.kind ≠ "StaticOptimization") (h2 : cfg.kind ≠ "MuscleAnalysis")
    (h3 : cfg.kind ≠ "JointReaction")
    (hskip : skipTrial cfg trial = false)
    (hparse : parse_analyze_set_xml cfg.xmlElems = Except.ok ps) :
    run_analyze_tool cfg trial =
        RunResult.errored (loadCalls cfg trial)
          (RunErr.valueError "AnalyzeTool must be called from a child class") ∧
      (∀ k, EngineCall.analysisConstruct k ∉ loadCalls cfg trial) ∧
      EngineCall.analyzeToolConstruct ∉ loadCalls cfg trial ∧
      EngineCall.analyzeRun ∉ loadCalls cfg trial := by
  refine ⟨?_, loadCalls_no_analysis cfg trial⟩
  unfold run_analyze_tool
  simp [hskip, runBody, hparse, setupAnalysis, h1, h2, h3]

/-- C4 witness: the amended statement instantiated at kind `"Analyze"`
(the base class name), an empty parameter template, and an unfiltered
trial. -/
theorem unknown_kind_error_amended_witness :
    run_analyze_tool ⟨none, none, none, true, false, "Analyze", []⟩ ⟨"trial", 0, 9⟩ =
      RunResult.errored
        (loadCalls ⟨none, none, none, true, false, "Analyze", []⟩ ⟨"trial", 0, 9⟩)
        (RunErr.valueError "AnalyzeTool must be called from a child class") :=
  (unknown_kind_error_amended ⟨none, none, none, true, false, "Analyze", []⟩
    ⟨"trial", 0, 9⟩ [] (by decide) (by decide) (by decide) rfl rfl).1

/-- A complete StaticOptimization configuration: every parameter the run
reads is present with a usable type, the model is given as a path, no
external-forces template, prefix `"wu"`, and the explicit time range
`[0, 5]`. -/
def cfgSO : Config :=
  { prefixOpt := some "wu", startTime := some 0, endTime := some 5,
    modelIsPath := true, xmlForces := false, kind := "StaticOptimization",
    xmlElems :=
      [⟨"use_model_force_set", some "true"⟩,
       ⟨"activation_exponent", some "2"⟩,
       ⟨"use_muscle_physiology", some "false"⟩,
       ⟨"optimizer_convergence_criterion", some "0.0001"⟩,
       ⟨"optimizer_max_iterations", some "100"⟩,
       ⟨"on", some "true"⟩,
       ⟨"step_interval", some "1"⟩,
       ⟨"in_degrees", some "true"⟩] }

/-- C2 (code bug): the explicit start time `0` is not the sentinel `-1`,
yet the truthiness test `if self.start_time and self.start_time != -1`
discards it and the trial-derived first time is used instead — here a
full StaticOptimization run with time range `[0, 5]` over a trial whose
motion spans `[1, 4]` is executed with start time `1` (trial-derived)
and end time `5` (explicit), while the claim requires start time `0`.
The trial-derived fallback for an absent time range does hold
(`effective_time none`). -/
theorem time_range_zero_start_ignored :
    effective_time (some 0) 1 = 1 ∧
      (0 : ℚ) ≠ -1 ∧
      effective_time (some 5) 4 = 5 ∧
      effective_time none 1 = 1 ∧
      run_analyze_tool cfgSO ⟨"wu_walk01", 1, 4⟩ =
        RunResult.completed
          [EngineCall.modelLoad, EngineCall.initSystem, EngineCall.storageLoad "wu_walk01",
           EngineCall.analysisConstruct "StaticOptimization",
           EngineCall.analyzeToolConstruct, EngineCall.analyzeRun]
          1 5 :=
  ⟨by decide, by decide, by decide, by decide, by decide⟩

end Pyosim
